import Mathlib

/-!
Verification development for the PSYCHE-7 assessment front-end.

The definitions below are a shallow embedding of the client-side state
machine in `src/App.tsx`, the data model in `src/types.ts` and the
external-gateway wrappers in `src/services/geminiService.ts`.  Effects that
come from the environment (the model's HTTP response, `Date.now()`,
`Math.random()`, the generated entry id) are passed in as explicit
parameters; everything else follows the source line by line.
-/

namespace Psyche7

/-- Lifecycle states of the view controller, from the `AppState` enum in
`src/types.ts` (the `LEADERBOARD` state is declared there but never entered). -/
inductive AppState where
  | BOOTING
  | AUTH
  | MENU
  | GENERATING
  | ASSESSMENT
  | ANALYZING
  | RESULT
  | LEADERBOARD
  | ERROR
deriving DecidableEq, Repr

/-- A generated question, from the `Question` interface in `src/types.ts`. -/
structure Question where
  id : Int
  text : String
  dimension : String
  options : List String
deriving DecidableEq, Repr

/-- A recorded answer, from the `Answer` interface in `src/types.ts`. -/
structure Answer where
  questionId : Int
  questionText : String
  selectedOption : String
  dimension : String
  timeTaken : Nat
deriving DecidableEq, Repr

/-- The object decoded from the analysis response body.  The response schema
requires `score`, the five string lists and `confidenceScore`; since
`JSON.parse` is not validated, the payload may additionally carry its own
`subjectName` / `generatedAt` fields, which the client overwrites by spreading
`{...analysis, subjectName, generatedAt}`. -/
structure AnalysisPayload where
  score : Int
  dominantTraits : List String
  strengths : List String
  weaknesses : List String
  behavioralTendencies : List String
  riskIndicators : List String
  confidenceScore : Int
  subjectName : Option String := none
  generatedAt : Option String := none
deriving DecidableEq, Repr

/-- The final report, from the `PersonalityReport` interface in `src/types.ts`. -/
structure PersonalityReport where
  subjectName : String
  score : Int
  dominantTraits : List String
  strengths : List String
  weaknesses : List String
  behavioralTendencies : List String
  riskIndicators : List String
  confidenceScore : Int
  generatedAt : String
deriving DecidableEq, Repr

/-- A leaderboard row, from the `LeaderboardEntry` interface in `src/types.ts`. -/
structure LeaderboardEntry where
  username : String
  score : Int
  date : String
  id : String
deriving DecidableEq, Repr

/-- A thrown JavaScript error as observed by the catch blocks: only its
`message` property is consulted, which is `undefined` (`none`) when a
non-`Error` value was thrown. -/
structure JsError where
  message : Option String
deriving DecidableEq, Repr

/-- JavaScript `v || fallback` applied to a string-or-undefined value: the
fallback is chosen when `v` is `undefined` or the (falsy) empty string. -/
def jsOr (v : Option String) (fallback : String) : String :=
  match v with
  | none => fallback
  | some s => if s = "" then fallback else s

/-- Outcome of the raw question-generation call in
`generateAssessmentQuestions` (`src/services/geminiService.ts`): the response
text may be empty (`noText`), fail `JSON.parse` (`malformed`, carrying the
thrown error), or decode to an array of questions (`parsed`). -/
inductive GenResponse where
  | noText
  | malformed (e : JsError)
  | parsed (qs : List Question)
deriving DecidableEq, Repr

/-- The natural-language request sent for question generation; `count` enters
the gateway call only through this prompt (and the system instruction). -/
def questionPrompt (count : Nat) : String :=
  "Generate " ++ toString count ++ " psychological assessment questions."

/-- Embedding of `generateAssessmentQuestions` from
`src/services/geminiService.ts`.  A missing API key throws before the call;
an empty response text throws; a `JSON.parse` failure propagates; otherwise
the decoded array is returned as-is — the client performs no validation of
the question count or of the number of options. -/
def generateAssessmentQuestions (count : Nat) (apiKey : Option String)
    (resp : GenResponse) : Except JsError (List Question) :=
  match apiKey with
  | none => Except.error ⟨some "API_KEY not found in environment."⟩
  | some _ =>
    match resp with
    | GenResponse.noText => Except.error ⟨some "No data received from construct."⟩
    | GenResponse.malformed e => Except.error e
    | GenResponse.parsed qs => Except.ok qs

/-- Outcome of the raw analysis call in `analyzePersonality`. -/
inductive AnalysisResponse where
  | noText
  | malformed (e : JsError)
  | parsed (p : AnalysisPayload)
deriving DecidableEq, Repr

/-- Embedding of `analyzePersonality` from `src/services/geminiService.ts`.
`nowIso` is the `new Date().toISOString()` value taken at completion.  On
success the function returns `{...analysis, subjectName: username,
generatedAt: nowIso}`: the locally attached fields overwrite whatever
`subjectName` / `generatedAt` the model may have emitted. -/
def analyzePersonality (answers : List Answer) (username : String)
    (apiKey : Option String) (resp : AnalysisResponse) (nowIso : String) :
    Except JsError PersonalityReport :=
  match apiKey with
  | none => Except.error ⟨some "API_KEY not found in environment."⟩
  | some _ =>
    match resp with
    | AnalysisResponse.noText => Except.error ⟨some "Analysis Protocol Failed."⟩
    | AnalysisResponse.malformed e => Except.error e
    | AnalysisResponse.parsed p =>
        Except.ok { subjectName := username
                    score := p.score
                    dominantTraits := p.dominantTraits
                    strengths := p.strengths
                    weaknesses := p.weaknesses
                    behavioralTendencies := p.behavioralTendencies
                    riskIndicators := p.riskIndicators
                    confidenceScore := p.confidenceScore
                    generatedAt := nowIso }

/-- The order imposed by the comparator `(a, b) => b.score - a.score` in
`App.tsx`: `a` may stand before `b` exactly when the comparator is `≤ 0`,
i.e. when `b.score ≤ a.score` (score descending). -/
def scoreDescRel (a b : LeaderboardEntry) : Prop := b.score ≤ a.score

instance : DecidableRel scoreDescRel := fun a b =>
  inferInstanceAs (Decidable (b.score ≤ a.score))

instance : IsTotal LeaderboardEntry scoreDescRel :=
  ⟨fun a b => (le_total a.score b.score).symm⟩

instance : IsTrans LeaderboardEntry scoreDescRel :=
  ⟨fun _ _ _ hab hbc => le_trans hbc hab⟩

/-- The leaderboard update in `finishAssessment` (`src/App.tsx`):
`[...leaderboard, newEntry].sort((a, b) => b.score - a.score).slice(0, 10)`.
ECMAScript `Array.prototype.sort` is required to be stable, so it is embedded
as a stable insertion sort with respect to `scoreDescRel`. -/
def updateLeaderboard (leaderboard : List LeaderboardEntry)
    (newEntry : LeaderboardEntry) : List LeaderboardEntry :=
  ((leaderboard ++ [newEntry]).insertionSort scoreDescRel).take 10

/-- One tick of the fake progress interval:
`prev => Math.min(prev + Math.random() * rate, 90)`, with `r` standing for the
`Math.random()` draw (so `r ∈ [0, 1)`), `rate = 5` during generation and
`rate = 2` during analysis. -/
def progressTick (rate p r : ℚ) : ℚ := min (p + r * rate) 90

/-- The sequence of displayed progress values while the simulator ticks,
starting from the reset value 0. -/
def progressTrajectory (rate : ℚ) (rs : List ℚ) : List ℚ :=
  List.scanl (progressTick rate) 0 rs

/-- The final progress value after a run of ticks, starting from 0. -/
def progressTicks (rate : ℚ) (rs : List ℚ) : ℚ :=
  List.foldl (progressTick rate) 0 rs

/-- Whitespace trimming as performed by JavaScript
`String.prototype.trim`: leading and trailing whitespace removed. -/
def jsTrim (s : String) : String :=
  ⟨((s.data.dropWhile Char.isWhitespace).reverse.dropWhile Char.isWhitespace).reverse⟩

/-- Per-character uppercasing as performed by JavaScript
`String.prototype.toUpperCase` on the codename input. -/
def jsToUpper (s : String) : String := ⟨s.data.map Char.toUpper⟩

instance {ε α : Type} [DecidableEq ε] [DecidableEq α] : DecidableEq (Except ε α) :=
  fun x y =>
    match x, y with
    | Except.ok a, Except.ok b =>
        if h : a = b then isTrue (by rw [h])
        else isFalse (fun hc => h (Except.ok.inj hc))
    | Except.ok _, Except.error _ => isFalse (fun hc => Except.noConfusion hc)
    | Except.error _, Except.ok _ => isFalse (fun hc => Except.noConfusion hc)
    | Except.error e, Except.error f =>
        if h : e = f then isTrue (by rw [h])
        else isFalse (fun hc => h (Except.error.inj hc))

/-- The React state of the `App` component in `src/App.tsx`. -/
structure AppModel where
  state : AppState
  username : String
  questions : List Question
  answers : List Answer
  currentQuestionIndex : Nat
  report : Option PersonalityReport
  errorMsg : String
  loadingProgress : ℚ
  leaderboard : List LeaderboardEntry
deriving DecidableEq, Repr

/-- The username input handler: `setUsername(e.target.value.toUpperCase())`
normalizes to uppercase on every keystroke. -/
def onUsernameInput (m : AppModel) (value : String) : AppModel :=
  { m with username := jsToUpper value }

/-- Embedding of `handleLogin` (`src/App.tsx`): the `AUTH → MENU` transition
is taken exactly when `username.trim().length > 2`; otherwise the submission
is ignored. -/
def handleLogin (m : AppModel) : AppModel :=
  if 2 < (jsTrim m.username).length then { m with state := AppState.MENU } else m

/-- Environment inputs to one `startAssessment` run: the API-key lookup, the
raw gateway response, and the `Math.random()` draws of the progress interval
while the call is outstanding. -/
structure GenData where
  apiKey : Option String
  resp : GenResponse
  ticks : List ℚ
deriving DecidableEq, Repr

/-- Embedding of `startAssessment` (`src/App.tsx`).  It enters `GENERATING`,
resets progress and the error message, runs the fake ticker, and then either
installs the generated questions (clearing answers and the index) and settles
into `ASSESSMENT`, or on failure formats the error with the JS falsy fallback
and moves to `ERROR`, leaving the progress wherever the ticker left it. -/
def startAssessment (m : AppModel) (count : Nat) (gd : GenData) : AppModel :=
  match generateAssessmentQuestions count gd.apiKey gd.resp with
  | Except.ok q =>
      { m with state := AppState.ASSESSMENT
               errorMsg := ""
               loadingProgress := 100
               questions := q
               answers := []
               currentQuestionIndex := 0 }
  | Except.error err =>
      { m with state := AppState.ERROR
               errorMsg := "CONNECTION FAILED: " ++ jsOr err.message "UNKNOWN ERROR"
               loadingProgress := progressTicks 5 gd.ticks }

/-- Environment inputs to one `finishAssessment` run: API-key lookup, raw
analysis response, progress draws, the generated entry id, and the two
`new Date().toISOString()` readings (one inside `analyzePersonality` for the
report, one in `finishAssessment` for the leaderboard entry). -/
structure FinishData where
  apiKey : Option String
  resp : AnalysisResponse
  ticks : List ℚ
  newId : String
  reportIso : String
  entryIso : String
deriving DecidableEq, Repr

/-- Embedding of `finishAssessment` (`src/App.tsx`).  It enters `ANALYZING`,
runs the analysis call, and on success stores the report, records the new
leaderboard entry (sort descending, truncate to 10, persist) and settles into
`RESULT`; on failure it formats the error message and moves to `ERROR`. -/
def finishAssessment (m : AppModel) (finalAnswers : List Answer)
    (fd : FinishData) : AppModel :=
  match analyzePersonality finalAnswers m.username fd.apiKey fd.resp fd.reportIso with
  | Except.ok result =>
      let newEntry : LeaderboardEntry :=
        { username := m.username, score := result.score,
          date := fd.entryIso, id := fd.newId }
      { m with state := AppState.RESULT
               loadingProgress := 100
               report := some result
               leaderboard := updateLeaderboard m.leaderboard newEntry }
  | Except.error err =>
      { m with state := AppState.ERROR
               errorMsg := "ANALYSIS FAILED: " ++ jsOr err.message "DATA CORRUPTED"
               loadingProgress := progressTicks 2 fd.ticks }

/-- Embedding of `handleAnswer` (`src/App.tsx`).  `timeTaken` is the
`Date.now() - questionStartTime.current` reading.  When there is no question
at the current index, `questions[currentQuestionIndex]` is `undefined` and
reading `currentQ.id` throws a `TypeError` before any state update
(`Except.error ()`); otherwise the new answer is appended and either the
index advances or, on the final question, `finishAssessment` runs on the
appended answer list. -/
def handleAnswer (m : AppModel) (option : String) (timeTaken : Nat)
    (fd : FinishData) : Except Unit AppModel :=
  match m.questions[m.currentQuestionIndex]? with
  | none => Except.error ()
  | some currentQ =>
      let newAnswer : Answer :=
        { questionId := currentQ.id, questionText := currentQ.text,
          selectedOption := option, dimension := currentQ.dimension,
          timeTaken := timeTaken }
      if m.currentQuestionIndex < m.questions.length - 1 then
        Except.ok { m with answers := m.answers ++ [newAnswer],
                           currentQuestionIndex := m.currentQuestionIndex + 1 }
      else
        Except.ok (finishAssessment { m with answers := m.answers ++ [newAnswer] }
          (m.answers ++ [newAnswer]) fd)

/-- The `REBOOT SYSTEM` action of the error view (`renderError` in
`src/App.tsx`): its click handler is exactly `setState(AppState.MENU)`. -/
def errorReboot (m : AppModel) : AppModel := { m with state := AppState.MENU }

/-- One user answer click together with its environment inputs. -/
structure AnswerEvent where
  option : String
  timeTaken : Nat
  fd : FinishData
deriving DecidableEq, Repr

/-- Runs a sequence of answer clicks.  A click whose handler throws leaves the
React state untouched (the exception aborts only that handler), so the run
continues from the unchanged model. -/
def applyAnswers (m : AppModel) : List AnswerEvent → AppModel
  | [] => m
  | ev :: evs =>
      match handleAnswer m ev.option ev.timeTaken ev.fd with
      | Except.ok m' => applyAnswers m' evs
      | Except.error _ => applyAnswers m evs

/-- The session invariant claimed for the `ASSESSMENT` state: the current
index never passes the end of the question list and exactly one answer has
been recorded per question already passed. -/
def SessionInv (m : AppModel) : Prop :=
  m.state = AppState.ASSESSMENT →
    m.currentQuestionIndex ≤ m.questions.length ∧
    m.answers.length = m.currentQuestionIndex

/-- A concrete model used to instantiate theorems on explicit inputs. -/
def baseModel : AppModel :=
  { state := AppState.MENU, username := "CIPHER9", questions := [], answers := [],
    currentQuestionIndex := 0, report := none, errorMsg := "",
    loadingProgress := 0, leaderboard := [] }

/-- A concrete well-formed question used to instantiate theorems. -/
def sampleQuestion : Question :=
  ⟨1, "SAMPLE QUERY", "Autonomy", ["OPT A", "OPT B", "OPT C", "OPT D"]⟩

/-- Concrete environment inputs for a `finishAssessment` run that fails with
an empty response. -/
def sampleFinish : FinishData :=
  ⟨none, AnalysisResponse.noText, [], "id0", "iso0", "iso1"⟩

/-!
## Theorems
-/

theorem filter_orderedInsert_eqScore (a : LeaderboardEntry) (s : Int) (ha : a.score = s) :
    ∀ l : List LeaderboardEntry,
      (List.orderedInsert scoreDescRel a l).filter (fun x => x.score == s) =
        a :: l.filter (fun x => x.score == s)
  | [] => by simp [List.orderedInsert, ha]
  | b :: l => by
      by_cases hab : scoreDescRel a b
      · rw [List.orderedInsert, if_pos hab]
        simp [List.filter_cons, ha]
      · have hbs : (b.score == s) = false := by
          rw [beq_eq_false_iff_ne]
          intro hbs
          exact hab (le_of_eq (hbs.trans ha.symm))
        rw [List.orderedInsert, if_neg hab]
        simp [List.filter_cons, hbs, filter_orderedInsert_eqScore a s ha l]

theorem filter_orderedInsert_neScore (a : LeaderboardEntry) (s : Int) (ha : ¬a.score = s) :
    ∀ l : List LeaderboardEntry,
      (List.orderedInsert scoreDescRel a l).filter (fun x => x.score == s) =
        l.filter (fun x => x.score == s)
  | [] => by simp [List.orderedInsert, ha]
  | b :: l => by
      by_cases hab : scoreDescRel a b
      · rw [List.orderedInsert, if_pos hab]
        simp [List.filter_cons, ha]
      · rw [List.orderedInsert, if_neg hab]
        simp [List.filter_cons, filter_orderedInsert_neScore a s ha l]

theorem filter_insertionSort_score (s : Int) :
    ∀ l : List LeaderboardEntry,
      (l.insertionSort scoreDescRel).filter (fun x => x.score == s) =
        l.filter (fun x => x.score == s)
  | [] => rfl
  | a :: l => by
      rw [List.insertionSort]
      by_cases ha : a.score = s
      · rw [filter_orderedInsert_eqScore a s ha, filter_insertionSort_score s l]
        simp [List.filter_cons, ha]
      · rw [filter_orderedInsert_neScore a s ha, filter_insertionSort_score s l]
        simp [List.filter_cons, ha]

theorem updateLeaderboard_le_sorted (lb : List LeaderboardEntry) (e : LeaderboardEntry) :
    (updateLeaderboard lb e).length ≤ 10 ∧
    List.Pairwise (fun a b => b.score ≤ a.score) (updateLeaderboard lb e) :=
  ⟨List.length_take_le 10 _,
   List.Pairwise.sublist (List.take_sublist 10 _)
     (List.sorted_insertionSort scoreDescRel (lb ++ [e]))⟩

theorem foldl_updateLeaderboard_prop :
    ∀ (ops : List LeaderboardEntry) (lb : List LeaderboardEntry),
      lb.length ≤ 10 ∧ List.Pairwise (fun a b => b.score ≤ a.score) lb →
      (ops.foldl updateLeaderboard lb).length ≤ 10 ∧
        List.Pairwise (fun a b => b.score ≤ a.score) (ops.foldl updateLeaderboard lb)
  | [], _, h => h
  | o :: ops, lb, _ => by
      rw [List.foldl_cons]
      exact foldl_updateLeaderboard_prop ops (updateLeaderboard lb o)
        (updateLeaderboard_le_sorted lb o)

/-- C1: after any nonempty sequence of leaderboard record operations (each
appending a new entry and re-sorting), the stored collection has length at
most 10 and is sorted by score descending; moreover the sort used by the
record operation is stable: for every score, the entries carrying that score
appear in the sorted list in the same order as in the input list (where the
new entry is appended last), so ties are broken by insertion order. -/
theorem leaderboard_record_invariant (lb0 : List LeaderboardEntry)
    (ops : List LeaderboardEntry) (hops : ops ≠ [])
    (lb : List LeaderboardEntry) (e : LeaderboardEntry) (s : Int) :
    (ops.foldl updateLeaderboard lb0).length ≤ 10 ∧
    List.Pairwise (fun a b => b.score ≤ a.score) (ops.foldl updateLeaderboard lb0) ∧
    ((lb ++ [e]).insertionSort scoreDescRel).filter (fun x => x.score == s) =
      (lb ++ [e]).filter (fun x => x.score == s) := by
  have key : (ops.foldl updateLeaderboard lb0).length ≤ 10 ∧
      List.Pairwise (fun a b => b.score ≤ a.score) (ops.foldl updateLeaderboard lb0) := by
    cases ops with
    | nil => exact absurd rfl hops
    | cons o ops =>
        rw [List.foldl_cons]
        exact foldl_updateLeaderboard_prop ops (updateLeaderboard lb0 o)
          (updateLeaderboard_le_sorted lb0 o)
  exact ⟨key.1, key.2, filter_insertionSort_score s (lb ++ [e])⟩

theorem leaderboard_record_invariant_witness :
    (([⟨"NEW", 91, "d4", "4"⟩] : List LeaderboardEntry).foldl updateLeaderboard
        [⟨"GHOST_01", 98, "d1", "1"⟩, ⟨"NEXUS", 92, "d2", "2"⟩,
         ⟨"CIPHER", 85, "d3", "3"⟩]).length ≤ 10 ∧
    List.Pairwise (fun a b => b.score ≤ a.score)
      (([⟨"NEW", 91, "d4", "4"⟩] : List LeaderboardEntry).foldl updateLeaderboard
        [⟨"GHOST_01", 98, "d1", "1"⟩, ⟨"NEXUS", 92, "d2", "2"⟩,
         ⟨"CIPHER", 85, "d3", "3"⟩]) ∧
    ((([⟨"A", 92, "dA", "x"⟩] : List LeaderboardEntry) ++
        ([⟨"B", 92, "dB", "y"⟩] : List LeaderboardEntry)).insertionSort scoreDescRel).filter
        (fun x => x.score == 92) =
      (([⟨"A", 92, "dA", "x"⟩] : List LeaderboardEntry) ++
        ([⟨"B", 92, "dB", "y"⟩] : List LeaderboardEntry)).filter (fun x => x.score == 92) :=
  leaderboard_record_invariant
    ([⟨"GHOST_01", 98, "d1", "1"⟩, ⟨"NEXUS", 92, "d2", "2"⟩,
      ⟨"CIPHER", 85, "d3", "3"⟩] : List LeaderboardEntry)
    ([⟨"NEW", 91, "d4", "4"⟩] : List LeaderboardEntry) (by decide)
    ([⟨"A", 92, "dA", "x"⟩] : List LeaderboardEntry)
    (⟨"B", 92, "dB", "y"⟩ : LeaderboardEntry) 92

theorem scanl_head_eq (f : ℚ → ℚ → ℚ) (q : ℚ) (l : List ℚ) :
    (List.scanl f q l).head? = some q := by
  cases l <;> simp [List.scanl_nil, List.scanl_cons]

theorem progress_aux (rate : ℚ) (hrate : 0 ≤ rate) :
    ∀ (rs : List ℚ) (p : ℚ), 0 ≤ p → p ≤ 90 →
      (∀ r ∈ rs, 0 ≤ r ∧ r < 1) →
      List.Chain' (· ≤ ·) (List.scanl (progressTick rate) p rs) ∧
      ∀ x ∈ List.scanl (progressTick rate) p rs, 0 ≤ x ∧ x ≤ 90
  | [], p, hp0, hp90, _ => by
      rw [List.scanl_nil]
      refine ⟨List.chain'_singleton p, fun x hx => ?_⟩
      rw [List.mem_singleton] at hx
      exact hx ▸ ⟨hp0, hp90⟩
  | r :: rs, p, hp0, hp90, hrs => by
      have hr : 0 ≤ r ∧ r < 1 := hrs r (List.mem_cons_self r rs)
      have hq0 : 0 ≤ progressTick rate p r :=
        le_min (add_nonneg hp0 (mul_nonneg hr.1 hrate)) (by norm_num)
      have hq90 : progressTick rate p r ≤ 90 := min_le_right _ _
      have hpq : p ≤ progressTick rate p r :=
        le_min (le_add_of_nonneg_right (mul_nonneg hr.1 hrate)) hp90
      have ih := progress_aux rate hrate rs (progressTick rate p r) hq0 hq90
        (fun x hx => hrs x (List.mem_cons_of_mem r hx))
      rw [List.scanl_cons, List.singleton_append]
      constructor
      · rw [List.chain'_cons']
        refine ⟨fun y hy => ?_, ih.1⟩
        rw [scanl_head_eq, Option.mem_some_iff] at hy
        exact hy ▸ hpq
      · intro x hx
        rcases List.mem_cons.mp hx with rfl | hx
        · exact ⟨hp0, hp90⟩
        · exact ih.2 x hx

/-- C6: while the progress simulator ticks (rate 5 during generation, rate 2
during analysis, each tick adding `Math.random() * rate` clamped to 90), the
trajectory of displayed values starting from the reset value 0 never
decreases, and every displayed value is at most 90 — in particular strictly
below 91 — until the caller forces 100. -/
theorem progress_simulator_bounded (rate : ℚ) (hrate : rate = 5 ∨ rate = 2)
    (rs : List ℚ) (hrs : ∀ r ∈ rs, 0 ≤ r ∧ r < 1) :
    List.Chain' (· ≤ ·) (progressTrajectory rate rs) ∧
    ∀ x ∈ progressTrajectory rate rs, x ≤ 90 ∧ x < 91 := by
  have h0 : (0:ℚ) ≤ rate := by rcases hrate with rfl | rfl <;> norm_num
  obtain ⟨hc, hb⟩ := progress_aux rate h0 rs 0 le_rfl (by norm_num) hrs
  exact ⟨hc, fun x hx =>
    ⟨(hb x hx).2, lt_of_le_of_lt (hb x hx).2 (by norm_num)⟩⟩

theorem progress_simulator_bounded_witness :
    List.Chain' (· ≤ ·) (progressTrajectory 5 [0, 0]) ∧
    ∀ x ∈ progressTrajectory 5 [0, 0], x ≤ 90 ∧ x < 91 :=
  progress_simulator_bounded 5 (Or.inl rfl) [0, 0] (by decide)

/-- C2 counterexample: the gateway call resolves successfully on a decoded
payload holding a single question with three options although 20 were
requested — the client never validates the count or the options shape. -/
theorem generate_count_counterexample :
    generateAssessmentQuestions 20 (some "KEY")
        (GenResponse.parsed [⟨1, "Q1", "Autonomy", ["A", "B", "C"]⟩]) =
      Except.ok [(⟨1, "Q1", "Autonomy", ["A", "B", "C"]⟩ : Question)] ∧
    ([(⟨1, "Q1", "Autonomy", ["A", "B", "C"]⟩ : Question)].length = 20 → False) ∧
    ((⟨1, "Q1", "Autonomy", ["A", "B", "C"]⟩ : Question).options.length = 4 → False) :=
  ⟨rfl, by decide, by decide⟩

/-- C2 (amended): whenever generateAssessmentQuestions(count) resolves
successfully it returns exactly the array decoded from the model's response
text, performing no validation of the question count or of the number of
options per question; the result has exactly count questions with 4 options
each only when the model's payload already does.  A missing API key or an
empty response text fails with the corresponding error. -/
theorem generate_returns_payload (count : Nat) (key : String)
    (qs : List Question) (resp : GenResponse) :
    generateAssessmentQuestions count (some key) (GenResponse.parsed qs) = Except.ok qs ∧
    generateAssessmentQuestions count none resp =
      Except.error ⟨some "API_KEY not found in environment."⟩ ∧
    generateAssessmentQuestions count (some key) GenResponse.noText =
      Except.error ⟨some "No data received from construct."⟩ :=
  ⟨rfl, rfl, rfl⟩

/-- C3 counterexample: invoking the answer handler with no current question
(empty question list, index 0) throws — the read `currentQ.id` on
`undefined` raises a TypeError — refuting that it fails silently. -/
theorem handleAnswer_throws_counterexample :
    handleAnswer { baseModel with state := AppState.ASSESSMENT } "OPT A" 100 sampleFinish =
      Except.error () :=
  rfl

/-- C3 (amended): if the answer-recording operation is invoked when there is
no current question, it throws a TypeError (reading a property of the
`undefined` current question) instead of failing silently; the throw happens
before any state update, so the answer sequence, the current index and the
state are left unchanged, as the click runner shows. -/
theorem handleAnswer_no_question (m : AppModel) (o : String) (t : Nat)
    (fd : FinishData) (h : m.questions[m.currentQuestionIndex]? = none) :
    handleAnswer m o t fd = Except.error () ∧
    applyAnswers m [⟨o, t, fd⟩] = m := by
  have he : handleAnswer m o t fd = Except.error () := by
    simp only [handleAnswer, h]
  exact ⟨he, by simp only [applyAnswers, he]⟩

theorem handleAnswer_no_question_witness :
    handleAnswer baseModel "OPT X" 5 sampleFinish = Except.error () ∧
    applyAnswers baseModel [⟨"OPT X", 5, sampleFinish⟩] = baseModel :=
  handleAnswer_no_question baseModel "OPT X" 5 sampleFinish rfl

/-- C4 counterexample: from the ERROR state with a nonempty in-progress
session, the single recovery action does return to MENU but the question and
answer sequences are preserved across the transition, contradicting that
in-progress session data is discarded. -/
theorem errorReboot_counterexample :
    (errorReboot { baseModel with
        state := AppState.ERROR
        questions := [sampleQuestion]
        answers := [⟨1, "SAMPLE QUERY", "OPT A", "Autonomy", 100⟩] }).state =
      AppState.MENU ∧
    (errorReboot { baseModel with
        state := AppState.ERROR
        questions := [sampleQuestion]
        answers := [⟨1, "SAMPLE QUERY", "OPT A", "Autonomy", 100⟩] }).questions =
      [sampleQuestion] ∧
    (errorReboot { baseModel with
        state := AppState.ERROR
        questions := [sampleQuestion]
        answers := [⟨1, "SAMPLE QUERY", "OPT A", "Autonomy", 100⟩] }).answers =
      [⟨1, "SAMPLE QUERY", "OPT A", "Autonomy", 100⟩] ∧
    [sampleQuestion] ≠ ([] : List Question) :=
  ⟨rfl, rfl, rfl, by decide⟩

/-- C4 (amended): the recovery action from ERROR only sets the state to MENU;
the question sequence, answer sequence, current index and leaderboard are all
preserved across the transition (stale session data stays in memory, merely
unreachable), and only a later successful startAssessment replaces the
questions and resets the answers and the index. -/
theorem errorReboot_preserves (m : AppModel) (count : Nat) (key : String)
    (qs : List Question) (ticks : List ℚ) :
    (errorReboot m).state = AppState.MENU ∧
    (errorReboot m).questions = m.questions ∧
    (errorReboot m).answers = m.answers ∧
    (errorReboot m).currentQuestionIndex = m.currentQuestionIndex ∧
    (errorReboot m).leaderboard = m.leaderboard ∧
    (startAssessment (errorReboot m) count
        ⟨some key, GenResponse.parsed qs, ticks⟩).questions = qs ∧
    (startAssessment (errorReboot m) count
        ⟨some key, GenResponse.parsed qs, ticks⟩).answers = [] ∧
    (startAssessment (errorReboot m) count
        ⟨some key, GenResponse.parsed qs, ticks⟩).currentQuestionIndex = 0 :=
  ⟨rfl, rfl, rfl, rfl, rfl, rfl, rfl, rfl⟩

theorem jsTrim_length_le (s : String) : (jsTrim s).length ≤ s.length := by
  show ((s.data.dropWhile Char.isWhitespace).reverse.dropWhile
      Char.isWhitespace).reverse.length ≤ s.data.length
  rw [List.length_reverse]
  refine le_trans (List.dropWhile_sublist _).length_le ?_
  rw [List.length_reverse]
  exact (List.dropWhile_sublist _).length_le

/-- C5 counterexample: after typing "ab " (normalized to "AB ", length 3) the
login submission is still blocked, because the guard trims whitespace before
measuring, refuting that every username of length 3 or more is allowed. -/
theorem login_length3_blocked_counterexample :
    (onUsernameInput { baseModel with
        state := AppState.AUTH
        username := "" } "ab ").username = "AB " ∧
    ("AB ".length = 3) ∧
    (handleLogin (onUsernameInput { baseModel with
        state := AppState.AUTH
        username := "" } "ab ")).state = AppState.AUTH :=
  ⟨by decide, by decide, by decide⟩

/-- C5 (amended): the AUTH → MENU transition on login submission is taken
exactly when the trimmed username is longer than 2 characters; every username
of length 0, 1 or 2 is blocked, while a username of length 3 or more is
allowed only when surrounding whitespace does not bring its trimmed length
below 3. -/
theorem handleLogin_guard (m : AppModel) (h : m.state = AppState.AUTH) :
    ((handleLogin m).state = AppState.MENU ↔ 2 < (jsTrim m.username).length) ∧
    (m.username.length ≤ 2 → (handleLogin m).state = AppState.AUTH) := by
  constructor
  · constructor
    · intro hm
      by_contra hn
      rw [handleLogin, if_neg hn] at hm
      exact absurd (h.symm.trans hm) (by decide)
    · intro hg
      rw [handleLogin, if_pos hg]
  · intro hl
    have hle : (jsTrim m.username).length ≤ 2 := le_trans (jsTrim_length_le m.username) hl
    rw [handleLogin, if_neg (by omega)]
    exact h

theorem handleLogin_guard_witness :
    ((handleLogin { baseModel with state := AppState.AUTH }).state = AppState.MENU ↔
      2 < (jsTrim ({ baseModel with state := AppState.AUTH } : AppModel).username).length) ∧
    (({ baseModel with state := AppState.AUTH } : AppModel).username.length ≤ 2 →
      (handleLogin { baseModel with state := AppState.AUTH }).state = AppState.AUTH) :=
  handleLogin_guard { baseModel with state := AppState.AUTH } rfl

/-- C7 counterexample: a generation failure whose thrown error carries an
empty message — a present but empty cause — is shown as "CONNECTION FAILED:
UNKNOWN ERROR" rather than as "CONNECTION FAILED: " followed by that (empty)
cause, because the code applies the JS falsy check to the message. -/
theorem error_message_empty_cause_counterexample :
    (startAssessment baseModel 20
        ⟨some "KEY", GenResponse.malformed ⟨some ""⟩, []⟩).errorMsg =
      "CONNECTION FAILED: UNKNOWN ERROR" ∧
    ("CONNECTION FAILED: UNKNOWN ERROR" : String) ≠ "CONNECTION FAILED: " ++ "" :=
  ⟨rfl, by decide⟩

/-- C7 (amended): on gateway failure the system transitions to ERROR carrying
"CONNECTION FAILED: " (generation) or "ANALYSIS FAILED: " (analysis) followed
by the error's cause, except that the fallback text ("UNKNOWN ERROR" /
"DATA CORRUPTED") is used when the cause is absent or the empty string (the
JavaScript falsy check); in particular an analysis failure with cause
"timeout" shows exactly "ANALYSIS FAILED: timeout". -/
theorem gateway_error_messages (m : AppModel) (count : Nat)
    (ticks ticks2 : List ℚ) (fa : List Answer) (key nid ri ei : String)
    (cause : String) (hc : cause ≠ "") :
    (startAssessment m count
        ⟨some key, GenResponse.malformed ⟨some cause⟩, ticks⟩).errorMsg =
      "CONNECTION FAILED: " ++ cause ∧
    (startAssessment m count
        ⟨some key, GenResponse.malformed ⟨some cause⟩, ticks⟩).state =
      AppState.ERROR ∧
    (startAssessment m count
        ⟨some key, GenResponse.malformed ⟨none⟩, ticks⟩).errorMsg =
      "CONNECTION FAILED: UNKNOWN ERROR" ∧
    (startAssessment m count
        ⟨some key, GenResponse.malformed ⟨some ""⟩, ticks⟩).errorMsg =
      "CONNECTION FAILED: UNKNOWN ERROR" ∧
    (finishAssessment m fa
        ⟨some key, AnalysisResponse.malformed ⟨some cause⟩, ticks2, nid, ri, ei⟩).errorMsg =
      "ANALYSIS FAILED: " ++ cause ∧
    (finishAssessment m fa
        ⟨some key, AnalysisResponse.malformed ⟨some cause⟩, ticks2, nid, ri, ei⟩).state =
      AppState.ERROR ∧
    (finishAssessment m fa
        ⟨some key, AnalysisResponse.malformed ⟨none⟩, ticks2, nid, ri, ei⟩).errorMsg =
      "ANALYSIS FAILED: DATA CORRUPTED" ∧
    (finishAssessment m fa
        ⟨some key, AnalysisResponse.malformed ⟨some "timeout"⟩, ticks2, nid, ri, ei⟩).errorMsg =
      "ANALYSIS FAILED: timeout" := by
  refine ⟨?_, rfl, rfl, rfl, ?_, rfl, rfl, rfl⟩ <;>
    simp [startAssessment, finishAssessment, generateAssessmentQuestions,
      analyzePersonality, jsOr, hc]

theorem gateway_error_messages_witness :
    (startAssessment baseModel 20
        ⟨some "KEY", GenResponse.malformed ⟨some "timeout"⟩, []⟩).errorMsg =
      "CONNECTION FAILED: " ++ "timeout" ∧
    (startAssessment baseModel 20
        ⟨some "KEY", GenResponse.malformed ⟨some "timeout"⟩, []⟩).state =
      AppState.ERROR ∧
    (startAssessment baseModel 20
        ⟨some "KEY", GenResponse.malformed ⟨none⟩, []⟩).errorMsg =
      "CONNECTION FAILED: UNKNOWN ERROR" ∧
    (startAssessment baseModel 20
        ⟨some "KEY", GenResponse.malformed ⟨some ""⟩, []⟩).errorMsg =
      "CONNECTION FAILED: UNKNOWN ERROR" ∧
    (finishAssessment baseModel []
        ⟨some "KEY", AnalysisResponse.malformed ⟨some "timeout"⟩, [], "n", "r", "e"⟩).errorMsg =
      "ANALYSIS FAILED: " ++ "timeout" ∧
    (finishAssessment baseModel []
        ⟨some "KEY", AnalysisResponse.malformed ⟨some "timeout"⟩, [], "n", "r", "e"⟩).state =
      AppState.ERROR ∧
    (finishAssessment baseModel []
        ⟨some "KEY", AnalysisResponse.malformed ⟨none⟩, [], "n", "r", "e"⟩).errorMsg =
      "ANALYSIS FAILED: DATA CORRUPTED" ∧
    (finishAssessment baseModel []
        ⟨some "KEY", AnalysisResponse.malformed ⟨some "timeout"⟩, [], "n", "r", "e"⟩).errorMsg =
      "ANALYSIS FAILED: timeout" :=
  gateway_error_messages baseModel 20 [] [] [] "KEY" "n" "r" "e" "timeout" (by decide)

theorem finishAssessment_state (m : AppModel) (fa : List Answer) (fd : FinishData) :
    (finishAssessment m fa fd).state = AppState.RESULT ∨
    (finishAssessment m fa fd).state = AppState.ERROR := by
  cases h : analyzePersonality fa m.username fd.apiKey fd.resp fd.reportIso with
  | ok r => left; simp [finishAssessment, h]
  | error e => right; simp [finishAssessment, h]

theorem handleAnswer_sessionInv (m m' : AppModel) (o : String) (t : Nat)
    (fd : FinishData) (hm : SessionInv m)
    (h : handleAnswer m o t fd = Except.ok m') : SessionInv m' := by
  cases hq : m.questions[m.currentQuestionIndex]? with
  | none => simp [handleAnswer, hq] at h
  | some q =>
      simp only [handleAnswer, hq] at h
      by_cases hlt : m.currentQuestionIndex < m.questions.length - 1
      · rw [if_pos hlt] at h
        obtain rfl := Except.ok.inj h
        intro hst
        have hidx : m.currentQuestionIndex < m.questions.length :=
          (List.getElem?_eq_some.mp hq).1
        have hinv := hm hst
        exact ⟨hidx, by simpa using hinv.2⟩
      · rw [if_neg hlt] at h
        obtain rfl := Except.ok.inj h
        intro hst
        rcases finishAssessment_state { m with answers := m.answers ++
            [⟨q.id, q.text, o, q.dimension, t⟩] } (m.answers ++
            [⟨q.id, q.text, o, q.dimension, t⟩]) fd with h1 | h1 <;>
          rw [hst] at h1 <;> exact absurd h1 (by decide)

theorem applyAnswers_sessionInv :
    ∀ (evs : List AnswerEvent) (m : AppModel),
      SessionInv m → SessionInv (applyAnswers m evs)
  | [], _, hm => hm
  | ev :: evs, m, hm => by
      rw [applyAnswers]
      cases h : handleAnswer m ev.option ev.timeTaken ev.fd with
      | ok m' =>
          simp only [h]
          exact applyAnswers_sessionInv evs m'
            (handleAnswer_sessionInv m m' ev.option ev.timeTaken ev.fd hm h)
      | error e =>
          simp only [h]
          exact applyAnswers_sessionInv evs m hm

theorem startAssessment_sessionInv (m : AppModel) (count : Nat) (gd : GenData) :
    SessionInv (startAssessment m count gd) := by
  cases h : generateAssessmentQuestions count gd.apiKey gd.resp with
  | ok q => intro _; simp [startAssessment, h]
  | error e => intro hst; rw [startAssessment, h] at hst; exact absurd hst (by simp)

/-- C8: throughout the ASSESSMENT state the session satisfies
0 ≤ currentQuestionIndex ≤ questions.length (the lower bound holds by the
index being a natural number: the source only ever assigns 0 or increments)
and answers.length = currentQuestionIndex: starting a session resets the
index to 0 with an empty answer sequence, the invariant holds after any run
of answer clicks, and an answer given while more questions remain appends
exactly one Answer, advances the index by 1 and stays in the same state. -/
theorem assessment_session_invariant (m : AppModel) (count : Nat) (gd : GenData)
    (evs : List AnswerEvent) (key : String) (qs : List Question) (ticks : List ℚ)
    (m1 m1' : AppModel) (o : String) (t : Nat) (fd : FinishData)
    (hok : handleAnswer m1 o t fd = Except.ok m1')
    (hmore : m1.currentQuestionIndex < m1.questions.length - 1) :
    (startAssessment m count ⟨some key, GenResponse.parsed qs, ticks⟩).state =
      AppState.ASSESSMENT ∧
    (startAssessment m count
        ⟨some key, GenResponse.parsed qs, ticks⟩).currentQuestionIndex = 0 ∧
    (startAssessment m count ⟨some key, GenResponse.parsed qs, ticks⟩).answers = [] ∧
    SessionInv (applyAnswers (startAssessment m count gd) evs) ∧
    m1'.answers.length = m1.answers.length + 1 ∧
    m1'.currentQuestionIndex = m1.currentQuestionIndex + 1 ∧
    m1'.state = m1.state := by
  refine ⟨rfl, rfl, rfl,
    applyAnswers_sessionInv evs _ (startAssessment_sessionInv m count gd), ?_⟩
  cases hq : m1.questions[m1.currentQuestionIndex]? with
  | none => simp [handleAnswer, hq] at hok
  | some q =>
      simp only [handleAnswer, hq] at hok
      rw [if_pos hmore] at hok
      obtain rfl := Except.ok.inj hok
      exact ⟨by simp, rfl, rfl⟩

theorem assessment_session_invariant_witness :
    (startAssessment baseModel 20
        ⟨some "KEY", GenResponse.parsed [sampleQuestion], []⟩).state =
      AppState.ASSESSMENT ∧
    (startAssessment baseModel 20
        ⟨some "KEY", GenResponse.parsed [sampleQuestion], []⟩).currentQuestionIndex = 0 ∧
    (startAssessment baseModel 20
        ⟨some "KEY", GenResponse.parsed [sampleQuestion], []⟩).answers = [] ∧
    SessionInv (applyAnswers (startAssessment baseModel 20
        ⟨some "KEY", GenResponse.parsed [sampleQuestion], []⟩) []) ∧
    ({ baseModel with
        state := AppState.ASSESSMENT
        questions := [sampleQuestion, sampleQuestion]
        answers := [⟨1, "SAMPLE QUERY", "OPT A", "Autonomy", 50⟩]
        currentQuestionIndex := 1 } : AppModel).answers.length =
      ({ baseModel with
        state := AppState.ASSESSMENT
        questions := [sampleQuestion, sampleQuestion] } : AppModel).answers.length + 1 ∧
    ({ baseModel with
        state := AppState.ASSESSMENT
        questions := [sampleQuestion, sampleQuestion]
        answers := [⟨1, "SAMPLE QUERY", "OPT A", "Autonomy", 50⟩]
        currentQuestionIndex := 1 } : AppModel).currentQuestionIndex =
      ({ baseModel with
        state := AppState.ASSESSMENT
        questions := [sampleQuestion, sampleQuestion] } : AppModel).currentQuestionIndex + 1 ∧
    ({ baseModel with
        state := AppState.ASSESSMENT
        questions := [sampleQuestion, sampleQuestion]
        answers := [⟨1, "SAMPLE QUERY", "OPT A", "Autonomy", 50⟩]
        currentQuestionIndex := 1 } : AppModel).state =
      ({ baseModel with
        state := AppState.ASSESSMENT
        questions := [sampleQuestion, sampleQuestion] } : AppModel).state :=
  assessment_session_invariant baseModel 20
    ⟨some "KEY", GenResponse.parsed [sampleQuestion], []⟩ [] "KEY" [sampleQuestion] []
    { baseModel with
        state := AppState.ASSESSMENT
        questions := [sampleQuestion, sampleQuestion] }
    { baseModel with
        state := AppState.ASSESSMENT
        questions := [sampleQuestion, sampleQuestion]
        answers := [⟨1, "SAMPLE QUERY", "OPT A", "Autonomy", 50⟩]
        currentQuestionIndex := 1 }
    "OPT A" 50 sampleFinish rfl (by decide)

/-- C9: whenever analyzePersonality resolves successfully, the returned
report has subjectName equal to the given username and generatedAt equal to
the completion-time timestamp; both are attached locally to the decoded
payload, overriding whatever fields the external model returned. -/
theorem analyzePersonality_attaches (answers : List Answer) (username : String)
    (apiKey : Option String) (resp : AnalysisResponse) (nowIso : String)
    (r : PersonalityReport)
    (h : analyzePersonality answers username apiKey resp nowIso = Except.ok r) :
    r.subjectName = username ∧ r.generatedAt = nowIso := by
  cases apiKey with
  | none => exact absurd h (by simp [analyzePersonality])
  | some key =>
      cases resp with
      | noText => exact absurd h (by simp [analyzePersonality])
      | malformed e => exact absurd h (by simp [analyzePersonality])
      | parsed p =>
          obtain rfl := Except.ok.inj h
          exact ⟨rfl, rfl⟩

theorem analyzePersonality_attaches_witness :
    (⟨"CIPHER9", 77, ["T"], ["S"], ["W"], ["B"], [], 88, "NOW"⟩ :
        PersonalityReport).subjectName = "CIPHER9" ∧
    (⟨"CIPHER9", 77, ["T"], ["S"], ["W"], ["B"], [], 88, "NOW"⟩ :
        PersonalityReport).generatedAt = "NOW" :=
  analyzePersonality_attaches [] "CIPHER9" (some "KEY")
    (AnalysisResponse.parsed ⟨77, ["T"], ["S"], ["W"], ["B"], [], 88,
      some "SPOOF", some "1999-01-01"⟩)
    "NOW" ⟨"CIPHER9", 77, ["T"], ["S"], ["W"], ["B"], [], 88, "NOW"⟩ rfl

/-- C10: when question generation fails, the failure handling is atomic with
respect to session and leaderboard data: the question sequence, the answer
sequence, the current question index and the leaderboard hold exactly the
values they had before GENERATING was entered, and the machine lands in
ERROR. -/
theorem generation_failure_atomic (m : AppModel) (count : Nat) (gd : GenData)
    (e : JsError)
    (h : generateAssessmentQuestions count gd.apiKey gd.resp = Except.error e) :
    (startAssessment m count gd).questions = m.questions ∧
    (startAssessment m count gd).answers = m.answers ∧
    (startAssessment m count gd).currentQuestionIndex = m.currentQuestionIndex ∧
    (startAssessment m count gd).leaderboard = m.leaderboard ∧
    (startAssessment m count gd).state = AppState.ERROR := by
  have hs : startAssessment m count gd =
      { m with
          state := AppState.ERROR
          errorMsg := "CONNECTION FAILED: " ++ jsOr e.message "UNKNOWN ERROR"
          loadingProgress := progressTicks 5 gd.ticks } := by
    unfold startAssessment
    rw [h]
  rw [hs]
  exact ⟨rfl, rfl, rfl, rfl, rfl⟩

theorem generation_failure_atomic_witness :
    (startAssessment baseModel 20 ⟨none, GenResponse.noText, []⟩).questions =
      baseModel.questions ∧
    (startAssessment baseModel 20 ⟨none, GenResponse.noText, []⟩).answers =
      baseModel.answers ∧
    (startAssessment baseModel 20 ⟨none, GenResponse.noText, []⟩).currentQuestionIndex =
      baseModel.currentQuestionIndex ∧
    (startAssessment baseModel 20 ⟨none, GenResponse.noText, []⟩).leaderboard =
      baseModel.leaderboard ∧
    (startAssessment baseModel 20 ⟨none, GenResponse.noText, []⟩).state =
      AppState.ERROR :=
  generation_failure_atomic baseModel 20 ⟨none, GenResponse.noText, []⟩
    ⟨some "API_KEY not found in environment."⟩ rfl

end Psyche7
